import Mathlib

/-!
Shallow embedding of the face-normalization core of the ai-match-cut
repository.

* `calculateEyeMetrics`, `alignFaceOnCanvas` are translated from
  `src/lib/faceAlignment.ts` (the file imported as `@/lib/faceAlignment`).
* The frame-sequence logic (`reprocessWithNewZoom`, the GIF/video export
  filters, the zoom staleness check) is translated from
  `src/app/components/FaceDetector.tsx`.

JS `number` arithmetic is modelled over `ℝ`; `Math.atan2` is modelled as
the principal argument of a complex number, which agrees with the JS
function on all non-degenerate inputs (both return values in `(-π, π]`,
computed from the signs of the two arguments).  Note that in this model
division by zero yields `0`, where JS yields `Infinity`/`NaN`; the spots
where this matters are called out at the relevant theorems.
-/

namespace AiMatchCut

/-- A 2-D point in pixel coordinates (Y grows downwards, as on a canvas). -/
@[ext]
structure Point where
  x : ℝ
  y : ℝ

/-- JS `Math.atan2 y x`, modelled as the argument of the complex number
`x + y·i`; the result lies in `(-π, π]`. -/
noncomputable def atan2 (y x : ℝ) : ℝ := Complex.arg ⟨x, y⟩

/-- The landmark data `calculateEyeMetrics` actually reads: the two eye
point sub-ranges of a face-api.js `FaceLandmarks68` value, as returned by
its `getLeftEye()` (points 36–41) and `getRightEye()` (points 42–47)
accessors. -/
structure FaceLandmarks where
  leftEye : List Point
  rightEye : List Point

/-- `EyeMetrics` record, from `faceAlignment.ts`. -/
structure EyeMetrics where
  leftEyeCenter : Point
  rightEyeCenter : Point
  eyeDistance : ℝ
  angle : ℝ
  centerPoint : Point

/-- `calculateEyeMetrics` from `faceAlignment.ts`: arithmetic-mean eye
centers, Euclidean eye distance, `atan2` angle, midpoint.  The
`reduce((sum, p) => sum + p.x, 0)` loops are list sums. -/
noncomputable def calculateEyeMetrics (landmarks : FaceLandmarks) : EyeMetrics :=
  let leftEye := landmarks.leftEye
  let rightEye := landmarks.rightEye
  let leftEyeCenter : Point :=
    { x := (leftEye.map Point.x).sum / leftEye.length
      y := (leftEye.map Point.y).sum / leftEye.length }
  let rightEyeCenter : Point :=
    { x := (rightEye.map Point.x).sum / rightEye.length
      y := (rightEye.map Point.y).sum / rightEye.length }
  let dx := rightEyeCenter.x - leftEyeCenter.x
  let dy := rightEyeCenter.y - leftEyeCenter.y
  let eyeDistance := Real.sqrt (dx * dx + dy * dy)
  let angle := atan2 dy dx
  let centerPoint : Point :=
    { x := (leftEyeCenter.x + rightEyeCenter.x) / 2
      y := (leftEyeCenter.y + rightEyeCenter.y) / 2 }
  { leftEyeCenter := leftEyeCenter
    rightEyeCenter := rightEyeCenter
    eyeDistance := eyeDistance
    angle := angle
    centerPoint := centerPoint }

/-- `AlignFaceOptions` from `faceAlignment.ts`; every field is optional and
defaulted inside `alignFaceOnCanvas`. -/
structure AlignFaceOptions where
  canvasSize : Option ℝ := none
  targetEyeDistance : Option ℝ := none
  targetEyeY : Option ℝ := none
  scaleFactor : Option ℝ := none

/-- A source `HTMLImageElement`; only its identity matters to the claims. -/
structure Image where
  id : ℕ

/-- The current transformation matrix in effect when `ctx.drawImage` runs in
`alignFaceOnCanvas`, recorded by its four parameters, exactly in the order
the source installs them: `translate(target)`, `rotate(-angle)`,
`scale(scale, scale)`, `translate(-center)`. -/
structure AlignTransform where
  target : Point
  angle : ℝ
  scale : ℝ
  center : Point

/-- Rotation by `t` radians, the matrix `ctx.rotate t` multiplies onto the
canvas transform. -/
noncomputable def rotatePoint (t : ℝ) (p : Point) : Point :=
  { x := p.x * Real.cos t - p.y * Real.sin t
    y := p.x * Real.sin t + p.y * Real.cos t }

/-- Where a source-image point lands on the output canvas. Canvas ops
post-multiply the CTM, so the composite of `translate(target)`,
`rotate(-angle)`, `scale(s, s)`, `translate(-center)` maps a point `p` to
`target + R(-angle)·(s·(p - center))`. -/
noncomputable def applyAlignTransform (t : AlignTransform) (p : Point) : Point :=
  let p1 : Point := { x := p.x - t.center.x, y := p.y - t.center.y }
  let p2 : Point := { x := t.scale * p1.x, y := t.scale * p1.y }
  let p3 := rotatePoint (-t.angle) p2
  { x := t.target.x + p3.x, y := t.target.y + p3.y }

/-- The output canvas of `alignFaceOnCanvas`: a freshly created element
(`document.createElement`, modelled by the fresh id), white-filled, with the
source image drawn once under the recorded transform. -/
structure Canvas where
  id : ℕ
  width : ℝ
  height : ℝ
  drawnImage : ℕ
  transform : AlignTransform

/-- The only error `alignFaceOnCanvas` can throw:
`throw new Error('Could not get canvas context')`. -/
inductive AlignError where
  | noCanvasContext

/-- The successful path of `alignFaceOnCanvas` from `faceAlignment.ts`:
option defaulting, eye metrics, scale `(targetEyeDistance / eyeDistance) *
scaleFactor`, target center `(canvasSize / 2, targetEyeY)`, and the four
transform steps followed by `drawImage`.  `fresh` is the id
`document.createElement` gives the new canvas. -/
noncomputable def alignFace (fresh : ℕ) (image : Image) (landmarks : FaceLandmarks)
    (options : AlignFaceOptions) : Canvas :=
  let canvasSize := options.canvasSize.getD 500
  let targetEyeDistance := options.targetEyeDistance.getD 140
  let targetEyeY := options.targetEyeY.getD (canvasSize * 0.4)
  let scaleFactor := options.scaleFactor.getD 1.0
  let metrics := calculateEyeMetrics landmarks
  let scale := targetEyeDistance / metrics.eyeDistance * scaleFactor
  let targetCenter : Point := { x := canvasSize / 2, y := targetEyeY }
  { id := fresh
    width := canvasSize
    height := canvasSize
    drawnImage := image.id
    transform :=
      { target := targetCenter
        angle := metrics.angle
        scale := scale
        center := metrics.centerPoint } }

/-- `alignFaceOnCanvas` with its single failure path: if
`canvas.getContext('2d')` returns null it throws, otherwise it renders.
The function performs no validation of `options` and no degeneracy check on
the metrics. -/
noncomputable def alignFaceOnCanvas (ctxAvailable : Bool) (fresh : ℕ) (image : Image)
    (landmarks : FaceLandmarks) (options : AlignFaceOptions) :
    Except AlignError Canvas :=
  if ctxAvailable then .ok (alignFace fresh image landmarks options)
  else .error .noCanvasContext

/-- Euclidean distance between two points, used to re-measure eye
separation on the output raster. -/
noncomputable def pointDist (a b : Point) : ℝ :=
  Real.sqrt ((b.x - a.x) * (b.x - a.x) + (b.y - a.y) * (b.y - a.y))

/-- The `ProcessedImage` record of `FaceDetector.tsx`: one frame of the
sequence. -/
structure ProcessedImage where
  id : String
  originalUrl : String
  alignedCanvas : Option Canvas
  angle : ℝ
  hasError : Bool
  errorMessage : Option String := none

/-- `generateGif`'s frame selection (`FaceDetector.tsx` line 308):
`images.filter(img => img.alignedCanvas && !img.hasError)`. -/
def gifValidImages (images : List ProcessedImage) : List ProcessedImage :=
  images.filter (fun img => img.alignedCanvas.isSome && !img.hasError)

/-- `generateVideo`'s frame selection (`FaceDetector.tsx` line 364), the
same filter written a second time in the source. -/
def videoValidImages (images : List ProcessedImage) : List ProcessedImage :=
  images.filter (fun img => img.alignedCanvas.isSome && !img.hasError)

/-- The `(frame, delay)` list handed to the GIF encoder: `gif.addFrame(
img.alignedCanvas, { delay: frameDuration })` for each valid image (the
inner `if (img.alignedCanvas)` is the `Option.map`). -/
def gifInputFrames (images : List ProcessedImage) (frameDuration : ℝ) :
    List (Canvas × ℝ) :=
  (gifValidImages images).filterMap
    (fun img => img.alignedCanvas.map (fun c => (c, frameDuration)))

/-- The canvases `generateVideo`'s `renderFrame` loop draws onto the
recorded surface, one per valid image (guarded by `if (img.alignedCanvas
&& ctx)`). -/
def videoInputFrames (images : List ProcessedImage) : List Canvas :=
  (videoValidImages images).filterMap (fun img => img.alignedCanvas)

/-- `validImagesCount` (`FaceDetector.tsx` line 512):
`images.filter(img => !img.hasError).length`, the count shown on the
Generate GIF / Generate Video buttons. -/
def validImagesCount (images : List ProcessedImage) : ℕ :=
  (images.filter (fun img => !img.hasError)).length

/-- One step of `reprocessWithNewZoom`'s `images.map` callback.  `loadImage`
models reloading `img.originalUrl`; `detect` models `detectSingleFace` on
the loaded image, with `.error` standing for any exception thrown inside
the per-image `try` block and `.ok none` for a missing detection or missing
landmarks.  The second component counts how many times the external
detector was invoked for this frame.  `now` is `Date.now()` and `fresh` is
the id of the canvas `alignFaceOnCanvas` would create. -/
noncomputable def reprocessFrame (loadImage : String → Image)
    (detect : Image → Except Unit (Option FaceLandmarks))
    (useZoom : ℝ) (now fresh : ℕ) (img : ProcessedImage) :
    ProcessedImage × ℕ :=
  if img.hasError || img.alignedCanvas.isNone then (img, 0)
  else
    let loadedImg := loadImage img.originalUrl
    match detect loadedImg with
    | .error _ => (img, 1)
    | .ok none => (img, 1)
    | .ok (some landmarks) =>
        let metrics := calculateEyeMetrics landmarks
        let alignedCanvas := alignFace fresh loadedImg landmarks
          { canvasSize := some 500, targetEyeDistance := some useZoom }
        ({ id := img.id ++ "-reprocessed-" ++ toString now
           originalUrl := img.originalUrl
           alignedCanvas := some alignedCanvas
           angle := metrics.angle * 180 / Real.pi
           hasError := false }, 1)

/-- The `images.map((img, index) => ...)` over the whole sequence; each
frame that realigns gets its own fresh canvas id (`base`, `base + 1`, ...). -/
noncomputable def reprocessImages (loadImage : String → Image)
    (detect : Image → Except Unit (Option FaceLandmarks))
    (useZoom : ℝ) (now : ℕ) : ℕ → List ProcessedImage → List ProcessedImage
  | _, [] => []
  | fresh, img :: rest =>
      (reprocessFrame loadImage detect useZoom now fresh img).1 ::
        reprocessImages loadImage detect useZoom now (fresh + 1) rest

/-- The component state `reprocessWithNewZoom` reads and writes (the
loading/progress flags it also toggles are irrelevant to the claims). -/
structure DetectorState where
  images : List ProcessedImage
  zoomLevel : ℝ
  processedWithZoom : ℝ

/-- `reprocessWithNewZoom(targetZoom?)` from `FaceDetector.tsx`: early
return on an empty sequence, `useZoom = targetZoom ?? zoomLevel`, map over
the frames, then `setImages` and `setProcessedWithZoom(useZoom)`. -/
noncomputable def reprocessWithNewZoom (loadImage : String → Image)
    (detect : Image → Except Unit (Option FaceLandmarks))
    (targetZoom : Option ℝ) (now base : ℕ) (st : DetectorState) : DetectorState :=
  if st.images.isEmpty then st
  else
    let useZoom := targetZoom.getD st.zoomLevel
    { st with
      images := reprocessImages loadImage detect useZoom now base st.images
      processedWithZoom := useZoom }

/-- The staleness check of `FaceDetector.tsx` (line 899 and the Reprocess
button): `zoomLevel !== processedWithZoom`. -/
def zoomStale (zoomLevel processedWithZoom : ℝ) : Prop :=
  zoomLevel ≠ processedWithZoom

/-! Concrete sample inputs used by the witnesses and counterexamples. -/

/-- A landmark set with distinct eye centers `(100, 200)` and `(200, 200)`
(eye distance 100, angle 0). -/
noncomputable def sampleLandmarks : FaceLandmarks :=
  { leftEye := [{ x := 100, y := 200 }], rightEye := [{ x := 200, y := 200 }] }

/-- A second landmark set, distinct from `sampleLandmarks`. -/
noncomputable def otherLandmarks : FaceLandmarks :=
  { leftEye := [{ x := 0, y := 0 }], rightEye := [{ x := 50, y := 0 }] }

/-- A degenerate landmark set: both eye centers at `(100, 100)`. -/
noncomputable def degenerateLandmarks : FaceLandmarks :=
  { leftEye := [{ x := 100, y := 100 }], rightEye := [{ x := 100, y := 100 }] }

/-- A source image element. -/
def sampleImage : Image := ⟨0⟩

/-- The canvas a successful first-pass alignment of `sampleImage` produced
(canvas id 0, default zoom 140). -/
noncomputable def sampleCanvas : Canvas :=
  alignFace 0 sampleImage sampleLandmarks
    { canvasSize := some 500, targetEyeDistance := some 140 }

/-- A frame whose original detection succeeded. -/
noncomputable def sampleFrame : ProcessedImage :=
  { id := "img-1"
    originalUrl := "blob:one"
    alignedCanvas := some sampleCanvas
    angle := 0
    hasError := false }

/-- A frame whose original detection failed. -/
def failedFrame : ProcessedImage :=
  { id := "img-2"
    originalUrl := "blob:two"
    alignedCanvas := none
    angle := 0
    hasError := true
    errorMessage := some "No face detected" }

/-! ### Helper lemmas -/

theorem sqrt_mul_cos_atan2 (x y : ℝ) :
    Real.sqrt (x * x + y * y) * Real.cos (atan2 y x) = x := by
  have h := Complex.abs_mul_cos_arg ⟨x, y⟩
  rw [Complex.abs_apply, Complex.normSq_mk] at h
  exact h

theorem sqrt_mul_sin_atan2 (x y : ℝ) :
    Real.sqrt (x * x + y * y) * Real.sin (atan2 y x) = y := by
  have h := Complex.abs_mul_sin_arg ⟨x, y⟩
  rw [Complex.abs_apply, Complex.normSq_mk] at h
  exact h

theorem metrics_cos (l : FaceLandmarks) :
    (calculateEyeMetrics l).eyeDistance * Real.cos (calculateEyeMetrics l).angle
      = (calculateEyeMetrics l).rightEyeCenter.x - (calculateEyeMetrics l).leftEyeCenter.x := by
  simp only [calculateEyeMetrics]
  exact sqrt_mul_cos_atan2 _ _

theorem metrics_sin (l : FaceLandmarks) :
    (calculateEyeMetrics l).eyeDistance * Real.sin (calculateEyeMetrics l).angle
      = (calculateEyeMetrics l).rightEyeCenter.y - (calculateEyeMetrics l).leftEyeCenter.y := by
  simp only [calculateEyeMetrics]
  exact sqrt_mul_sin_atan2 _ _

theorem metrics_center_x (l : FaceLandmarks) :
    (calculateEyeMetrics l).centerPoint.x
      = ((calculateEyeMetrics l).leftEyeCenter.x + (calculateEyeMetrics l).rightEyeCenter.x) / 2 :=
  rfl

theorem metrics_center_y (l : FaceLandmarks) :
    (calculateEyeMetrics l).centerPoint.y
      = ((calculateEyeMetrics l).leftEyeCenter.y + (calculateEyeMetrics l).rightEyeCenter.y) / 2 :=
  rfl

/-- The geometry of the composed canvas transform, over abstract reals:
with the eye axis at angle `θ` and length `d`, the transform centered at
the eye midpoint sends the midpoint to the target and the two eye centers
to horizontally symmetric points `k = s·d` apart. -/
theorem align_core (cs tey d θ s k : ℝ) (L R C : Point)
    (f1 : d * Real.cos θ = R.x - L.x) (f2 : d * Real.sin θ = R.y - L.y)
    (f3 : C.x = (L.x + R.x) / 2) (f4 : C.y = (L.y + R.y) / 2)
    (hs : s * d = k) :
    applyAlignTransform ⟨⟨cs / 2, tey⟩, θ, s, C⟩ C = ⟨cs / 2, tey⟩ ∧
    applyAlignTransform ⟨⟨cs / 2, tey⟩, θ, s, C⟩ L = ⟨cs / 2 - k / 2, tey⟩ ∧
    applyAlignTransform ⟨⟨cs / 2, tey⟩, θ, s, C⟩ R = ⟨cs / 2 + k / 2, tey⟩ := by
  obtain ⟨Lx, Ly⟩ := L
  obtain ⟨Rx, Ry⟩ := R
  obtain ⟨Cx, Cy⟩ := C
  simp only at f1 f2 f3 f4
  have hRx : Rx = Lx + d * Real.cos θ := by linarith
  have hRy : Ry = Ly + d * Real.sin θ := by linarith
  subst hRx
  subst hRy
  subst f3
  subst f4
  have hp := Real.sin_sq_add_cos_sq θ
  refine ⟨Point.ext ?_ ?_, Point.ext ?_ ?_, Point.ext ?_ ?_⟩ <;>
    simp only [applyAlignTransform, rotatePoint, Real.cos_neg, Real.sin_neg]
  · ring
  · ring
  · linear_combination (-(s * d) / 2) * hp - hs / 2
  · ring
  · linear_combination (s * d / 2) * hp + hs / 2
  · ring

theorem sqrt_ten_thousand : Real.sqrt 10000 = 100 := by
  rw [show (10000 : ℝ) = 100 ^ 2 by norm_num]
  exact Real.sqrt_sq (by norm_num)

theorem sampleLandmarks_eyeDistance :
    (calculateEyeMetrics sampleLandmarks).eyeDistance = 100 := by
  norm_num [calculateEyeMetrics, sampleLandmarks, sqrt_ten_thousand]

theorem degenerate_eyeDistance :
    (calculateEyeMetrics degenerateLandmarks).eyeDistance = 0 := by
  norm_num [calculateEyeMetrics, degenerateLandmarks, Real.sqrt_zero]

theorem sampleLandmarks_eyeDistance_pos :
    0 < (calculateEyeMetrics sampleLandmarks).eyeDistance := by
  rw [sampleLandmarks_eyeDistance]
  norm_num

/-! ### Claim theorems -/

/-- C1 counterexample: on landmarks whose two eye centers coincide (eye
distance 0), `calculateEyeMetrics` returns normally and the following
transform build in `alignFaceOnCanvas` succeeds as well — no
`DegenerateLandmarks` failure occurs anywhere; the unchecked division
`targetEyeDistance / 0` flows into the transform's scale (0 in this
real-number model, `Infinity` in JS float semantics). -/
theorem c1_degenerate_counterexample :
    (calculateEyeMetrics degenerateLandmarks).eyeDistance = 0 ∧
    alignFaceOnCanvas true 0 sampleImage degenerateLandmarks {}
      = .ok (alignFace 0 sampleImage degenerateLandmarks {}) ∧
    (alignFace 0 sampleImage degenerateLandmarks {}).transform.scale = 0 := by
  refine ⟨degenerate_eyeDistance, rfl, ?_⟩
  show (140 : ℝ) / (calculateEyeMetrics degenerateLandmarks).eyeDistance * 1.0 = 0
  rw [degenerate_eyeDistance]
  norm_num

/-- C1 amended: for every landmark set whose computed `eyeDistance` is 0,
`calculateEyeMetrics` returns normally, `alignFaceOnCanvas` performs no
degeneracy check — whenever a canvas context is available it still renders
the frame, with the scale computed by dividing by the zero `eyeDistance`
(0 in this model, `Infinity` in JS); no `DegenerateLandmarks` error exists
(the function's only failure is the missing-context throw). -/
theorem c1_no_degenerate_check (l : FaceLandmarks) (opts : AlignFaceOptions)
    (fresh : ℕ) (img : Image)
    (h : (calculateEyeMetrics l).eyeDistance = 0) :
    alignFaceOnCanvas true fresh img l opts = .ok (alignFace fresh img l opts) ∧
    (alignFace fresh img l opts).transform.scale = 0 ∧
    (alignFace fresh img l opts).drawnImage = img.id := by
  refine ⟨rfl, ?_, rfl⟩
  show opts.targetEyeDistance.getD 140 / (calculateEyeMetrics l).eyeDistance
      * opts.scaleFactor.getD 1.0 = 0
  rw [h, div_zero, zero_mul]

/-- Witness for `c1_no_degenerate_check` at the coincident-eyes landmarks. -/
theorem c1_no_degenerate_check_witness :
    (calculateEyeMetrics degenerateLandmarks).eyeDistance = 0 ∧
    (alignFaceOnCanvas true 0 sampleImage degenerateLandmarks {}
        = .ok (alignFace 0 sampleImage degenerateLandmarks {}) ∧
      (alignFace 0 sampleImage degenerateLandmarks {}).transform.scale = 0 ∧
      (alignFace 0 sampleImage degenerateLandmarks {}).drawnImage = sampleImage.id) :=
  ⟨degenerate_eyeDistance,
    c1_no_degenerate_check degenerateLandmarks {} 0 sampleImage degenerate_eyeDistance⟩

/-- C4 counterexample: a configuration with the non-positive field
`canvasSize = -5` is not rejected: `alignFaceOnCanvas` succeeds and uses
the invalid value as the output width and height — no `InvalidConfig`
error and no clamping. -/
theorem c4_invalid_config_counterexample :
    alignFaceOnCanvas true 0 sampleImage sampleLandmarks { canvasSize := some (-5) }
      = .ok (alignFace 0 sampleImage sampleLandmarks { canvasSize := some (-5) }) ∧
    (alignFace 0 sampleImage sampleLandmarks { canvasSize := some (-5) }).width = -5 ∧
    (alignFace 0 sampleImage sampleLandmarks { canvasSize := some (-5) }).height = -5 :=
  ⟨rfl, rfl, rfl⟩

/-- C4 amended: `alignFaceOnCanvas` performs no validation of its options
whatsoever: for every configuration (including non-positive values) it
succeeds whenever a canvas context is available, and every supplied value
is used exactly as given (defaulted only when absent) — never rejected and
never clamped. -/
theorem c4_no_config_validation (opts : AlignFaceOptions) (l : FaceLandmarks)
    (fresh : ℕ) (img : Image) :
    alignFaceOnCanvas true fresh img l opts = .ok (alignFace fresh img l opts) ∧
    (alignFace fresh img l opts).width = opts.canvasSize.getD 500 ∧
    (alignFace fresh img l opts).height = opts.canvasSize.getD 500 ∧
    (alignFace fresh img l opts).transform.scale
      = opts.targetEyeDistance.getD 140 / (calculateEyeMetrics l).eyeDistance
          * opts.scaleFactor.getD 1.0 ∧
    (alignFace fresh img l opts).transform.target.x = opts.canvasSize.getD 500 / 2 ∧
    (alignFace fresh img l opts).transform.target.y
      = opts.targetEyeY.getD (opts.canvasSize.getD 500 * 0.4) :=
  ⟨rfl, rfl, rfl, rfl, rfl, rfl⟩

/-- C2: for every landmark set with positive eye distance and every
positive configuration, the canvas transform built by `alignFaceOnCanvas`
uses uniform scale `(targetEyeDistance / eyeDistance) * scaleFactor`, maps
the eye midpoint to `(canvasSize / 2, targetEyeY)`, maps the two eye
centers to the same output height (horizontal eye line), and puts them
exactly `targetEyeDistance * scaleFactor` apart. -/
theorem c2_similarity_transform (l : FaceLandmarks) (cs ted tey sf : ℝ)
    (fresh : ℕ) (image : Image)
    (hcs : 0 < cs) (hted : 0 < ted) (hsf : 0 < sf)
    (hd : 0 < (calculateEyeMetrics l).eyeDistance) :
    (alignFace fresh image l ⟨some cs, some ted, some tey, some sf⟩).transform.scale
      = ted / (calculateEyeMetrics l).eyeDistance * sf ∧
    applyAlignTransform
        (alignFace fresh image l ⟨some cs, some ted, some tey, some sf⟩).transform
        (calculateEyeMetrics l).centerPoint = ⟨cs / 2, tey⟩ ∧
    (applyAlignTransform
        (alignFace fresh image l ⟨some cs, some ted, some tey, some sf⟩).transform
        (calculateEyeMetrics l).leftEyeCenter).y
      = (applyAlignTransform
          (alignFace fresh image l ⟨some cs, some ted, some tey, some sf⟩).transform
          (calculateEyeMetrics l).rightEyeCenter).y ∧
    pointDist
        (applyAlignTransform
          (alignFace fresh image l ⟨some cs, some ted, some tey, some sf⟩).transform
          (calculateEyeMetrics l).leftEyeCenter)
        (applyAlignTransform
          (alignFace fresh image l ⟨some cs, some ted, some tey, some sf⟩).transform
          (calculateEyeMetrics l).rightEyeCenter)
      = ted * sf := by
  have hdne : (calculateEyeMetrics l).eyeDistance ≠ 0 := ne_of_gt hd
  have hs : ted / (calculateEyeMetrics l).eyeDistance * sf
      * (calculateEyeMetrics l).eyeDistance = ted * sf := by
    field_simp
  have htr : (alignFace fresh image l ⟨some cs, some ted, some tey, some sf⟩).transform
      = ⟨⟨cs / 2, tey⟩, (calculateEyeMetrics l).angle,
          ted / (calculateEyeMetrics l).eyeDistance * sf,
          (calculateEyeMetrics l).centerPoint⟩ := rfl
  obtain ⟨h1, h2, h3⟩ := align_core cs tey (calculateEyeMetrics l).eyeDistance
    (calculateEyeMetrics l).angle (ted / (calculateEyeMetrics l).eyeDistance * sf)
    (ted * sf) (calculateEyeMetrics l).leftEyeCenter (calculateEyeMetrics l).rightEyeCenter
    (calculateEyeMetrics l).centerPoint (metrics_cos l) (metrics_sin l)
    (metrics_center_x l) (metrics_center_y l) hs
  refine ⟨rfl, ?_, ?_, ?_⟩
  · rw [htr]
    exact h1
  · rw [htr, h2, h3]
  · rw [htr, h2, h3]
    have hnn : 0 ≤ ted * sf := le_of_lt (mul_pos hted hsf)
    show Real.sqrt ((cs / 2 + ted * sf / 2 - (cs / 2 - ted * sf / 2))
          * (cs / 2 + ted * sf / 2 - (cs / 2 - ted * sf / 2))
        + (tey - tey) * (tey - tey)) = ted * sf
    rw [show (cs / 2 + ted * sf / 2 - (cs / 2 - ted * sf / 2))
          * (cs / 2 + ted * sf / 2 - (cs / 2 - ted * sf / 2))
        + (tey - tey) * (tey - tey) = (ted * sf) ^ 2 from by ring]
    exact Real.sqrt_sq hnn

/-- Witness for `c2_similarity_transform` at concrete landmarks with eye
centers `(100, 200)` and `(200, 200)` and the config
`{canvasSize := 500, targetEyeDistance := 140, targetEyeY := 200,
scaleFactor := 1}`. -/
theorem c2_similarity_transform_witness :
    ((0 : ℝ) < 500 ∧ (0 : ℝ) < 140 ∧ (0 : ℝ) < 1 ∧
      0 < (calculateEyeMetrics sampleLandmarks).eyeDistance) ∧
    ((alignFace 0 sampleImage sampleLandmarks
          ⟨some 500, some 140, some 200, some 1⟩).transform.scale
        = 140 / (calculateEyeMetrics sampleLandmarks).eyeDistance * 1 ∧
      applyAlignTransform
          (alignFace 0 sampleImage sampleLandmarks
            ⟨some 500, some 140, some 200, some 1⟩).transform
          (calculateEyeMetrics sampleLandmarks).centerPoint = ⟨500 / 2, 200⟩ ∧
      (applyAlignTransform
          (alignFace 0 sampleImage sampleLandmarks
            ⟨some 500, some 140, some 200, some 1⟩).transform
          (calculateEyeMetrics sampleLandmarks).leftEyeCenter).y
        = (applyAlignTransform
            (alignFace 0 sampleImage sampleLandmarks
              ⟨some 500, some 140, some 200, some 1⟩).transform
            (calculateEyeMetrics sampleLandmarks).rightEyeCenter).y ∧
      pointDist
          (applyAlignTransform
            (alignFace 0 sampleImage sampleLandmarks
              ⟨some 500, some 140, some 200, some 1⟩).transform
            (calculateEyeMetrics sampleLandmarks).leftEyeCenter)
          (applyAlignTransform
            (alignFace 0 sampleImage sampleLandmarks
              ⟨some 500, some 140, some 200, some 1⟩).transform
            (calculateEyeMetrics sampleLandmarks).rightEyeCenter)
        = 140 * 1) :=
  ⟨⟨by norm_num, by norm_num, by norm_num, sampleLandmarks_eyeDistance_pos⟩,
    c2_similarity_transform sampleLandmarks 500 140 200 1 0 sampleImage
      (by norm_num) (by norm_num) (by norm_num) sampleLandmarks_eyeDistance_pos⟩

/-- C5: for every landmark set with non-empty eye sub-ranges,
`calculateEyeMetrics` returns the reference values — unweighted arithmetic
means as eye centers, the Euclidean distance between them, their midpoint,
and `atan2(Δy, Δx)` of the left-to-right vector, lying in `(-π, π]`, with a
right eye higher than the left (smaller `y`, Y-down) giving a negative
angle, and angle 0 exactly when the eye line is horizontal with the left
eye truly to the left (or coincident). -/
theorem c5_eye_metrics_reference (l : FaceLandmarks)
    (hl : l.leftEye ≠ []) (hr : l.rightEye ≠ []) :
    (calculateEyeMetrics l).leftEyeCenter.x
      = (l.leftEye.map Point.x).sum / l.leftEye.length ∧
    (calculateEyeMetrics l).leftEyeCenter.y
      = (l.leftEye.map Point.y).sum / l.leftEye.length ∧
    (calculateEyeMetrics l).rightEyeCenter.x
      = (l.rightEye.map Point.x).sum / l.rightEye.length ∧
    (calculateEyeMetrics l).rightEyeCenter.y
      = (l.rightEye.map Point.y).sum / l.rightEye.length ∧
    (calculateEyeMetrics l).eyeDistance
      = pointDist (calculateEyeMetrics l).leftEyeCenter
          (calculateEyeMetrics l).rightEyeCenter ∧
    (calculateEyeMetrics l).centerPoint.x
      = ((calculateEyeMetrics l).leftEyeCenter.x
          + (calculateEyeMetrics l).rightEyeCenter.x) / 2 ∧
    (calculateEyeMetrics l).centerPoint.y
      = ((calculateEyeMetrics l).leftEyeCenter.y
          + (calculateEyeMetrics l).rightEyeCenter.y) / 2 ∧
    (calculateEyeMetrics l).angle
      = atan2
          ((calculateEyeMetrics l).rightEyeCenter.y
            - (calculateEyeMetrics l).leftEyeCenter.y)
          ((calculateEyeMetrics l).rightEyeCenter.x
            - (calculateEyeMetrics l).leftEyeCenter.x) ∧
    (calculateEyeMetrics l).angle ∈ Set.Ioc (-Real.pi) Real.pi ∧
    ((calculateEyeMetrics l).rightEyeCenter.y
        < (calculateEyeMetrics l).leftEyeCenter.y →
      (calculateEyeMetrics l).angle < 0) ∧
    ((calculateEyeMetrics l).angle = 0 ↔
      (calculateEyeMetrics l).leftEyeCenter.x
          ≤ (calculateEyeMetrics l).rightEyeCenter.x ∧
      (calculateEyeMetrics l).rightEyeCenter.y
          = (calculateEyeMetrics l).leftEyeCenter.y) := by
  refine ⟨rfl, rfl, rfl, rfl, rfl, rfl, rfl, rfl, ?_, ?_, ?_⟩
  · exact Complex.arg_mem_Ioc _
  · intro h
    exact Complex.arg_neg_iff.mpr (sub_neg.mpr h)
  · constructor
    · intro h
      obtain ⟨h1, h2⟩ := Complex.arg_eq_zero_iff.mp h
      exact ⟨sub_nonneg.mp h1, sub_eq_zero.mp h2⟩
    · rintro ⟨h1, h2⟩
      exact Complex.arg_eq_zero_iff.mpr ⟨sub_nonneg.mpr h1, sub_eq_zero.mpr h2⟩

/-- Witness for `c5_eye_metrics_reference` at the sample landmarks. -/
theorem c5_eye_metrics_reference_witness :
    (sampleLandmarks.leftEye ≠ [] ∧ sampleLandmarks.rightEye ≠ []) ∧
    ((calculateEyeMetrics sampleLandmarks).leftEyeCenter.x
        = (sampleLandmarks.leftEye.map Point.x).sum / sampleLandmarks.leftEye.length ∧
      (calculateEyeMetrics sampleLandmarks).leftEyeCenter.y
        = (sampleLandmarks.leftEye.map Point.y).sum / sampleLandmarks.leftEye.length ∧
      (calculateEyeMetrics sampleLandmarks).rightEyeCenter.x
        = (sampleLandmarks.rightEye.map Point.x).sum / sampleLandmarks.rightEye.length ∧
      (calculateEyeMetrics sampleLandmarks).rightEyeCenter.y
        = (sampleLandmarks.rightEye.map Point.y).sum / sampleLandmarks.rightEye.length ∧
      (calculateEyeMetrics sampleLandmarks).eyeDistance
        = pointDist (calculateEyeMetrics sampleLandmarks).leftEyeCenter
            (calculateEyeMetrics sampleLandmarks).rightEyeCenter ∧
      (calculateEyeMetrics sampleLandmarks).centerPoint.x
        = ((calculateEyeMetrics sampleLandmarks).leftEyeCenter.x
            + (calculateEyeMetrics sampleLandmarks).rightEyeCenter.x) / 2 ∧
      (calculateEyeMetrics sampleLandmarks).centerPoint.y
        = ((calculateEyeMetrics sampleLandmarks).leftEyeCenter.y
            + (calculateEyeMetrics sampleLandmarks).rightEyeCenter.y) / 2 ∧
      (calculateEyeMetrics sampleLandmarks).angle
        = atan2
            ((calculateEyeMetrics sampleLandmarks).rightEyeCenter.y
              - (calculateEyeMetrics sampleLandmarks).leftEyeCenter.y)
            ((calculateEyeMetrics sampleLandmarks).rightEyeCenter.x
              - (calculateEyeMetrics sampleLandmarks).leftEyeCenter.x) ∧
      (calculateEyeMetrics sampleLandmarks).angle ∈ Set.Ioc (-Real.pi) Real.pi ∧
      ((calculateEyeMetrics sampleLandmarks).rightEyeCenter.y
          < (calculateEyeMetrics sampleLandmarks).leftEyeCenter.y →
        (calculateEyeMetrics sampleLandmarks).angle < 0) ∧
      ((calculateEyeMetrics sampleLandmarks).angle = 0 ↔
        (calculateEyeMetrics sampleLandmarks).leftEyeCenter.x
            ≤ (calculateEyeMetrics sampleLandmarks).rightEyeCenter.x ∧
        (calculateEyeMetrics sampleLandmarks).rightEyeCenter.y
            = (calculateEyeMetrics sampleLandmarks).leftEyeCenter.y)) := by
  have hl : sampleLandmarks.leftEye ≠ [] := by simp [sampleLandmarks]
  have hr : sampleLandmarks.rightEye ≠ [] := by simp [sampleLandmarks]
  exact ⟨⟨hl, hr⟩, c5_eye_metrics_reference sampleLandmarks hl hr⟩

/-- C9: `calculateEyeMetrics` is deterministic — its output is a function
of the eye point lists alone, so two calls on the same input produce
identical (`bit-identical` in the JS sense) metrics in every field. -/
theorem c9_deterministic (l₁ l₂ : FaceLandmarks)
    (hl : l₁.leftEye ≠ []) (hr : l₁.rightEye ≠ [])
    (hd : (calculateEyeMetrics l₁).eyeDistance ≠ 0)
    (hleft : l₁.leftEye = l₂.leftEye) (hright : l₁.rightEye = l₂.rightEye) :
    calculateEyeMetrics l₁ = calculateEyeMetrics l₂ ∧
    (calculateEyeMetrics l₁).eyeDistance = (calculateEyeMetrics l₂).eyeDistance ∧
    (calculateEyeMetrics l₁).angle = (calculateEyeMetrics l₂).angle ∧
    (calculateEyeMetrics l₁).leftEyeCenter = (calculateEyeMetrics l₂).leftEyeCenter ∧
    (calculateEyeMetrics l₁).rightEyeCenter = (calculateEyeMetrics l₂).rightEyeCenter ∧
    (calculateEyeMetrics l₁).centerPoint = (calculateEyeMetrics l₂).centerPoint := by
  obtain ⟨le₁, re₁⟩ := l₁
  obtain ⟨le₂, re₂⟩ := l₂
  simp only at hleft hright
  subst hleft
  subst hright
  exact ⟨rfl, rfl, rfl, rfl, rfl, rfl⟩

/-- Witness for `c9_deterministic` at the sample landmarks. -/
theorem c9_deterministic_witness :
    (sampleLandmarks.leftEye ≠ [] ∧ sampleLandmarks.rightEye ≠ [] ∧
      (calculateEyeMetrics sampleLandmarks).eyeDistance ≠ 0 ∧
      sampleLandmarks.leftEye = sampleLandmarks.leftEye ∧
      sampleLandmarks.rightEye = sampleLandmarks.rightEye) ∧
    (calculateEyeMetrics sampleLandmarks = calculateEyeMetrics sampleLandmarks ∧
      (calculateEyeMetrics sampleLandmarks).eyeDistance
        = (calculateEyeMetrics sampleLandmarks).eyeDistance ∧
      (calculateEyeMetrics sampleLandmarks).angle
        = (calculateEyeMetrics sampleLandmarks).angle ∧
      (calculateEyeMetrics sampleLandmarks).leftEyeCenter
        = (calculateEyeMetrics sampleLandmarks).leftEyeCenter ∧
      (calculateEyeMetrics sampleLandmarks).rightEyeCenter
        = (calculateEyeMetrics sampleLandmarks).rightEyeCenter ∧
      (calculateEyeMetrics sampleLandmarks).centerPoint
        = (calculateEyeMetrics sampleLandmarks).centerPoint) := by
  have hl : sampleLandmarks.leftEye ≠ [] := by simp [sampleLandmarks]
  have hr : sampleLandmarks.rightEye ≠ [] := by simp [sampleLandmarks]
  have hd : (calculateEyeMetrics sampleLandmarks).eyeDistance ≠ 0 :=
    sampleLandmarks_eyeDistance_pos.ne'
  exact ⟨⟨hl, hr, hd, rfl, rfl⟩,
    c9_deterministic sampleLandmarks sampleLandmarks hl hr hd rfl rfl⟩

/-- A `filterMap` whose function succeeds on every element keeps the length. -/
theorem length_filterMap_isSome {α β : Type} (f : α → Option β) (l : List α)
    (h : ∀ x ∈ l, (f x).isSome = true) : (l.filterMap f).length = l.length := by
  induction l with
  | nil => rfl
  | cons x xs ih =>
      have hx := h x (List.mem_cons_self x xs)
      obtain ⟨b, hb⟩ := Option.isSome_iff_exists.mp hx
      rw [List.filterMap_cons, hb]
      simp only [List.length_cons]
      rw [ih (fun y hy => h y (List.mem_cons_of_mem x hy))]

/-- Two filters that agree on every element of the list produce the same
result. -/
theorem filter_congr_on {α : Type} (p q : α → Bool) (l : List α)
    (h : ∀ x ∈ l, p x = q x) : l.filter p = l.filter q := by
  induction l with
  | nil => rfl
  | cons x xs ih =>
      rw [List.filter_cons, List.filter_cons,
        h x (List.mem_cons_self x xs),
        ih (fun y hy => h y (List.mem_cons_of_mem x hy))]

/-- C6: the encoder input of both the GIF and the video exporter is exactly
the frames with an aligned raster and no error flag; failed frames are
excluded from the encoder lists, every selected frame contributes exactly
one encoder frame, and (on sequences satisfying the canvas/error pairing
the pipeline maintains) the export count equals the encoder input length. -/
theorem c6_export_excludes_failed (images : List ProcessedImage) (fd : ℝ)
    (img : ProcessedImage)
    (hinv : ∀ i ∈ images, i.hasError = false ↔ i.alignedCanvas.isSome = true) :
    (img ∈ gifValidImages images ↔
      img ∈ images ∧ img.alignedCanvas.isSome = true ∧ img.hasError = false) ∧
    (img ∈ videoValidImages images ↔
      img ∈ images ∧ img.alignedCanvas.isSome = true ∧ img.hasError = false) ∧
    (gifInputFrames images fd).length = (gifValidImages images).length ∧
    (videoInputFrames images).length = (videoValidImages images).length ∧
    validImagesCount images = (gifValidImages images).length := by
  have hmem : ∀ x ∈ images.filter
      (fun i => i.alignedCanvas.isSome && !i.hasError), x.alignedCanvas.isSome = true := by
    intro x hx
    have h2 := (List.mem_filter.mp hx).2
    rw [Bool.and_eq_true] at h2
    exact h2.1
  refine ⟨?_, ?_, ?_, ?_, ?_⟩
  · simp [gifValidImages, List.mem_filter, Bool.and_eq_true, Bool.not_eq_true', and_assoc]
  · simp [videoValidImages, List.mem_filter, Bool.and_eq_true, Bool.not_eq_true', and_assoc]
  · refine length_filterMap_isSome _ _ ?_
    intro x hx
    obtain ⟨cv, hcv⟩ := Option.isSome_iff_exists.mp (hmem x hx)
    rw [hcv]
    rfl
  · refine length_filterMap_isSome _ _ ?_
    intro x hx
    exact hmem x hx
  · unfold validImagesCount gifValidImages
    rw [filter_congr_on (fun i => !i.hasError)
      (fun i => i.alignedCanvas.isSome && !i.hasError) images ?_]
    intro x hx
    have hiff := hinv x hx
    show (!x.hasError) = (x.alignedCanvas.isSome && !x.hasError)
    cases he : x.hasError with
    | false =>
        have hsome : x.alignedCanvas.isSome = true := hiff.mp he
        rw [hsome]
        rfl
    | true => simp

/-- Witness for `c6_export_excludes_failed` on a two-frame sequence with
one successful and one failed frame. -/
theorem c6_export_excludes_failed_witness :
    (∀ i ∈ [sampleFrame, failedFrame],
      i.hasError = false ↔ i.alignedCanvas.isSome = true) ∧
    ((failedFrame ∈ gifValidImages [sampleFrame, failedFrame] ↔
        failedFrame ∈ [sampleFrame, failedFrame] ∧
        failedFrame.alignedCanvas.isSome = true ∧ failedFrame.hasError = false) ∧
      (failedFrame ∈ videoValidImages [sampleFrame, failedFrame] ↔
        failedFrame ∈ [sampleFrame, failedFrame] ∧
        failedFrame.alignedCanvas.isSome = true ∧ failedFrame.hasError = false) ∧
      (gifInputFrames [sampleFrame, failedFrame] 500).length
        = (gifValidImages [sampleFrame, failedFrame]).length ∧
      (videoInputFrames [sampleFrame, failedFrame]).length
        = (videoValidImages [sampleFrame, failedFrame]).length ∧
      validImagesCount [sampleFrame, failedFrame]
        = (gifValidImages [sampleFrame, failedFrame]).length) := by
  have hinv : ∀ i ∈ [sampleFrame, failedFrame],
      i.hasError = false ↔ i.alignedCanvas.isSome = true := by
    intro i hi
    rcases List.mem_cons.mp hi with h | h
    · subst h
      simp [sampleFrame]
    · rcases List.mem_cons.mp h with h2 | h2
      · subst h2
        simp [failedFrame]
      · simp at h2
  exact ⟨hinv, c6_export_excludes_failed [sampleFrame, failedFrame] 500 failedFrame hinv⟩

/-- `reprocessImages` maps the sequence element-wise: the length never
changes. -/
theorem reprocessImages_length (loadImage : String → Image)
    (detect : Image → Except Unit (Option FaceLandmarks)) (z : ℝ) (now : ℕ)
    (l : List ProcessedImage) : ∀ base : ℕ,
    (reprocessImages loadImage detect z now base l).length = l.length := by
  induction l with
  | nil => intro base; rfl
  | cons x xs ih =>
      intro base
      show (reprocessImages loadImage detect z now (base + 1) xs).length + 1
        = xs.length + 1
      rw [ih (base + 1)]

/-- `reprocessImages` is position-wise exactly `reprocessFrame` applied at
each index, with the fresh canvas id `base + index`. -/
theorem reprocessImages_get (loadImage : String → Image)
    (detect : Image → Except Unit (Option FaceLandmarks)) (z : ℝ) (now : ℕ)
    (l : List ProcessedImage) : ∀ base j : ℕ,
    (reprocessImages loadImage detect z now base l).get? j
      = (l.get? j).map
          (fun im => (reprocessFrame loadImage detect z now (base + j) im).1) := by
  induction l with
  | nil => intro base j; cases j <;> rfl
  | cons x xs ih =>
      intro base j
      cases j with
      | zero => rfl
      | succ j =>
          show (reprocessImages loadImage detect z now (base + 1) xs).get? j
            = (xs.get? j).map
                (fun im => (reprocessFrame loadImage detect z now (base + (j + 1)) im).1)
          rw [show base + (j + 1) = base + 1 + j from by omega]
          exact ih (base + 1) j

/-- A frame that is skipped (error flag set) passes through `reprocessFrame`
unchanged, with no detector call. -/
theorem reprocessFrame_failed (loadImage : String → Image)
    (detect : Image → Except Unit (Option FaceLandmarks)) (z : ℝ) (now fresh : ℕ)
    (img : ProcessedImage) (herr : img.hasError = true) :
    reprocessFrame loadImage detect z now fresh img = (img, 0) := by
  unfold reprocessFrame
  rw [herr]
  rfl

/-- On a successful frame whose re-detection finds no face or throws,
`reprocessFrame` returns the old frame (with one detector call). -/
theorem reprocessFrame_redetect_failed (loadImage : String → Image)
    (detect : Image → Except Unit (Option FaceLandmarks)) (z : ℝ) (now fresh : ℕ)
    (img : ProcessedImage) (c : Canvas)
    (herr : img.hasError = false) (hc : img.alignedCanvas = some c)
    (hdet : detect (loadImage img.originalUrl) = .ok none ∨
        detect (loadImage img.originalUrl) = .error ()) :
    reprocessFrame loadImage detect z now fresh img = (img, 1) := by
  unfold reprocessFrame
  rw [herr, hc]
  show (match detect (loadImage img.originalUrl) with
    | .error _ => (img, 1)
    | .ok none => (img, 1)
    | .ok (some landmarks) =>
        let metrics := calculateEyeMetrics landmarks
        let alignedCanvas := alignFace fresh (loadImage img.originalUrl) landmarks
          { canvasSize := some 500, targetEyeDistance := some z }
        ({ id := img.id ++ "-reprocessed-" ++ toString now
           originalUrl := img.originalUrl
           alignedCanvas := some alignedCanvas
           angle := metrics.angle * 180 / Real.pi
           hasError := false }, 1)) = (img, 1)
  rcases hdet with h | h <;> rw [h]

/-- On a successful frame whose re-detection succeeds with landmarks `lm`,
`reprocessFrame` builds a brand-new frame around a brand-new canvas. -/
theorem reprocessFrame_success (loadImage : String → Image)
    (detect : Image → Except Unit (Option FaceLandmarks)) (z : ℝ) (now fresh : ℕ)
    (img : ProcessedImage) (c : Canvas) (lm : FaceLandmarks)
    (herr : img.hasError = false) (hc : img.alignedCanvas = some c)
    (hdet : detect (loadImage img.originalUrl) = .ok (some lm)) :
    reprocessFrame loadImage detect z now fresh img
      = ({ id := img.id ++ "-reprocessed-" ++ toString now
           originalUrl := img.originalUrl
           alignedCanvas := some (alignFace fresh (loadImage img.originalUrl) lm
             { canvasSize := some 500, targetEyeDistance := some z })
           angle := (calculateEyeMetrics lm).angle * 180 / Real.pi
           hasError := false }, 1) := by
  unfold reprocessFrame
  rw [herr, hc]
  show (match detect (loadImage img.originalUrl) with
    | .error _ => (img, 1)
    | .ok none => (img, 1)
    | .ok (some landmarks) =>
        let metrics := calculateEyeMetrics landmarks
        let alignedCanvas := alignFace fresh (loadImage img.originalUrl) landmarks
          { canvasSize := some 500, targetEyeDistance := some z }
        ({ id := img.id ++ "-reprocessed-" ++ toString now
           originalUrl := img.originalUrl
           alignedCanvas := some alignedCanvas
           angle := metrics.angle * 180 / Real.pi
           hasError := false }, 1)) = _
  rw [hdet]

/-- On a nonempty sequence `reprocessWithNewZoom` takes its main branch. -/
theorem reprocessWithNewZoom_nonempty (loadImage : String → Image)
    (detect : Image → Except Unit (Option FaceLandmarks))
    (targetZoom : Option ℝ) (now base : ℕ) (st : DetectorState)
    (hne : st.images.isEmpty = false) :
    reprocessWithNewZoom loadImage detect targetZoom now base st
      = { st with
            images := reprocessImages loadImage detect
              (targetZoom.getD st.zoomLevel) now base st.images
            processedWithZoom := targetZoom.getD st.zoomLevel } := by
  unfold reprocessWithNewZoom
  rw [hne]
  rfl

/-- A list with an element at some position is nonempty. -/
theorem isEmpty_false_of_get {α : Type} (l : List α) (i : ℕ) (a : α)
    (h : l.get? i = some a) : l.isEmpty = false := by
  cases hl : l with
  | nil => rw [hl] at h; cases i <;> simp at h
  | cons x xs => rfl

/-- C7: reprocessing maps the sequence element-wise — the result has the
same length, every position holds exactly the reprocessing of the frame
that was at that position (so surviving frames are never reordered or
dropped), and a frame whose original detection failed is passed through
unchanged. -/
theorem c7_reprocess_elementwise (loadImage : String → Image)
    (detect : Image → Except Unit (Option FaceLandmarks))
    (targetZoom : Option ℝ) (now base : ℕ) (st : DetectorState)
    (i : ℕ) (img : ProcessedImage)
    (hi : st.images.get? i = some img) (herr : img.hasError = true) :
    (reprocessWithNewZoom loadImage detect targetZoom now base st).images.length
      = st.images.length ∧
    (∀ j, (reprocessWithNewZoom loadImage detect targetZoom now base st).images.get? j
      = (st.images.get? j).map
          (fun im => (reprocessFrame loadImage detect
            (targetZoom.getD st.zoomLevel) now (base + j) im).1)) ∧
    (reprocessWithNewZoom loadImage detect targetZoom now base st).images.get? i
      = some img := by
  have hne := isEmpty_false_of_get st.images i img hi
  have hrw := reprocessWithNewZoom_nonempty loadImage detect targetZoom now base st hne
  refine ⟨?_, ?_, ?_⟩
  · rw [hrw]
    exact reprocessImages_length loadImage detect (targetZoom.getD st.zoomLevel)
      now st.images base
  · intro j
    rw [hrw]
    exact reprocessImages_get loadImage detect (targetZoom.getD st.zoomLevel)
      now st.images base j
  · rw [hrw]
    show (reprocessImages loadImage detect (targetZoom.getD st.zoomLevel)
        now base st.images).get? i = some img
    rw [reprocessImages_get loadImage detect (targetZoom.getD st.zoomLevel)
      now st.images base i, hi]
    show some ((reprocessFrame loadImage detect (targetZoom.getD st.zoomLevel)
        now (base + i) img).1) = some img
    rw [reprocessFrame_failed loadImage detect (targetZoom.getD st.zoomLevel)
      now (base + i) img herr]

/-- Witness for `c7_reprocess_elementwise` on a one-frame sequence holding
a failed frame. -/
theorem c7_reprocess_elementwise_witness :
    ((DetectorState.mk [failedFrame] 140 140).images.get? 0 = some failedFrame ∧
      failedFrame.hasError = true) ∧
    ((reprocessWithNewZoom (fun _ => sampleImage) (fun _ => .ok none)
        (some 100) 3 5 (DetectorState.mk [failedFrame] 140 140)).images.length
      = (DetectorState.mk [failedFrame] 140 140).images.length ∧
    (∀ j, (reprocessWithNewZoom (fun _ => sampleImage) (fun _ => .ok none)
        (some 100) 3 5 (DetectorState.mk [failedFrame] 140 140)).images.get? j
      = ((DetectorState.mk [failedFrame] 140 140).images.get? j).map
          (fun im => (reprocessFrame (fun _ => sampleImage) (fun _ => .ok none)
            ((some (100 : ℝ)).getD (DetectorState.mk [failedFrame] 140 140).zoomLevel)
            3 (5 + j) im).1)) ∧
    (reprocessWithNewZoom (fun _ => sampleImage) (fun _ => .ok none)
        (some 100) 3 5 (DetectorState.mk [failedFrame] 140 140)).images.get? 0
      = some failedFrame) :=
  ⟨⟨rfl, rfl⟩,
    c7_reprocess_elementwise (fun _ => sampleImage) (fun _ => .ok none)
      (some 100) 3 5 (DetectorState.mk [failedFrame] 140 140) 0 failedFrame rfl rfl⟩

/-- C10: when re-detection on a previously successful frame finds no face
or throws, the frame keeps its previous canvas, angle and success flag
(the old frame object is returned as-is), yet `processedWithZoom` is still
set to the newly requested zoom, so the staleness check `zoomLevel !==
processedWithZoom` reports the sequence as up to date even though that
frame's raster was produced under the old zoom. -/
theorem c10_stale_frame_after_failed_redetect (loadImage : String → Image)
    (detect : Image → Except Unit (Option FaceLandmarks)) (z : ℝ) (now base : ℕ)
    (st : DetectorState) (i : ℕ) (img : ProcessedImage) (c : Canvas)
    (hi : st.images.get? i = some img)
    (herr : img.hasError = false)
    (hc : img.alignedCanvas = some c)
    (hdet : detect (loadImage img.originalUrl) = .ok none ∨
        detect (loadImage img.originalUrl) = .error ()) :
    (reprocessWithNewZoom loadImage detect (some z) now base st).images.get? i
      = some img ∧
    (reprocessWithNewZoom loadImage detect (some z) now base st).processedWithZoom
      = z ∧
    ¬ zoomStale z
      (reprocessWithNewZoom loadImage detect (some z) now base st).processedWithZoom := by
  have hne := isEmpty_false_of_get st.images i img hi
  have hrw := reprocessWithNewZoom_nonempty loadImage detect (some z) now base st hne
  have hpz : (reprocessWithNewZoom loadImage detect (some z) now base st).processedWithZoom
      = z := by
    rw [hrw]
    rfl
  refine ⟨?_, hpz, ?_⟩
  · rw [hrw]
    show (reprocessImages loadImage detect ((some z).getD st.zoomLevel)
        now base st.images).get? i = some img
    rw [reprocessImages_get loadImage detect ((some z).getD st.zoomLevel)
      now st.images base i, hi]
    show some ((reprocessFrame loadImage detect ((some z).getD st.zoomLevel)
        now (base + i) img).1) = some img
    rw [reprocessFrame_redetect_failed loadImage detect ((some z).getD st.zoomLevel)
      now (base + i) img c herr hc hdet]
  · rw [hpz]
    intro h
    exact h rfl

/-- Witness for `c10_stale_frame_after_failed_redetect`: one successful
frame, detector now reporting no face, zoom changed from 140 to 100. -/
theorem c10_stale_frame_after_failed_redetect_witness :
    ((DetectorState.mk [sampleFrame] 140 140).images.get? 0 = some sampleFrame ∧
      sampleFrame.hasError = false ∧
      sampleFrame.alignedCanvas = some sampleCanvas ∧
      ((fun _ : Image => (.ok none : Except Unit (Option FaceLandmarks)))
          ((fun _ : String => sampleImage) sampleFrame.originalUrl) = .ok none ∨
        (fun _ : Image => (.ok none : Except Unit (Option FaceLandmarks)))
          ((fun _ : String => sampleImage) sampleFrame.originalUrl) = .error ())) ∧
    ((reprocessWithNewZoom (fun _ => sampleImage) (fun _ => .ok none)
        (some 100) 3 5 (DetectorState.mk [sampleFrame] 140 140)).images.get? 0
      = some sampleFrame ∧
    (reprocessWithNewZoom (fun _ => sampleImage) (fun _ => .ok none)
        (some 100) 3 5 (DetectorState.mk [sampleFrame] 140 140)).processedWithZoom
      = 100 ∧
    ¬ zoomStale 100
      (reprocessWithNewZoom (fun _ => sampleImage) (fun _ => .ok none)
        (some 100) 3 5 (DetectorState.mk [sampleFrame] 140 140)).processedWithZoom) :=
  ⟨⟨rfl, rfl, rfl, Or.inl rfl⟩,
    c10_stale_frame_after_failed_redetect (fun _ => sampleImage) (fun _ => .ok none)
      100 3 5 (DetectorState.mk [sampleFrame] 140 140) 0 sampleFrame sampleCanvas
      rfl rfl rfl (Or.inl rfl)⟩

/-- C3 counterexample: reprocessing a concrete previously successful frame
invokes the external detector (count 1, not 0), and the new canvas is
aligned from the landmarks the detector returns now (`otherLandmarks`) —
not from any cached landmarks (`ProcessedImage` stores none). -/
theorem c3_reprocess_redetects_counterexample :
    (reprocessFrame (fun _ => sampleImage) (fun _ => .ok (some otherLandmarks))
        140 7 1 sampleFrame).2 = 1 ∧
    (reprocessFrame (fun _ => sampleImage) (fun _ => .ok (some otherLandmarks))
        140 7 1 sampleFrame).1.alignedCanvas
      = some (alignFace 1 sampleImage otherLandmarks
          { canvasSize := some 500, targetEyeDistance := some 140 }) :=
  ⟨rfl, rfl⟩

/-- C3 amended: for every frame whose original detection succeeded,
reprocessing re-loads the original image and re-invokes the external face
detector exactly once; there is no cached-landmark path and no
force-redetection flag in the code. -/
theorem c3_reprocess_invokes_detector (loadImage : String → Image)
    (detect : Image → Except Unit (Option FaceLandmarks)) (z : ℝ) (now fresh : ℕ)
    (img : ProcessedImage)
    (herr : img.hasError = false) (hc : img.alignedCanvas.isSome = true) :
    (reprocessFrame loadImage detect z now fresh img).2 = 1 := by
  obtain ⟨c, hc2⟩ := Option.isSome_iff_exists.mp hc
  cases hd : detect (loadImage img.originalUrl) with
  | error e =>
      cases e
      rw [reprocessFrame_redetect_failed loadImage detect z now fresh img c
        herr hc2 (Or.inr hd)]
  | ok o =>
      cases o with
      | none =>
          rw [reprocessFrame_redetect_failed loadImage detect z now fresh img c
            herr hc2 (Or.inl hd)]
      | some lm =>
          rw [reprocessFrame_success loadImage detect z now fresh img c lm
            herr hc2 hd]

/-- Witness for `c3_reprocess_invokes_detector` at the sample successful
frame. -/
theorem c3_reprocess_invokes_detector_witness :
    (sampleFrame.hasError = false ∧ sampleFrame.alignedCanvas.isSome = true) ∧
    (reprocessFrame (fun _ => sampleImage) (fun _ => .ok none)
        100 3 2 sampleFrame).2 = 1 :=
  ⟨⟨rfl, rfl⟩,
    c3_reprocess_invokes_detector (fun _ => sampleImage) (fun _ => .ok none)
      100 3 2 sampleFrame rfl rfl⟩

/-- C8: alignment and reprocessing never touch existing rasters:
`alignFaceOnCanvas` renders onto a freshly created canvas (its id is the
fresh allocation, distinct from every existing canvas id) and only reads
the source image; a successful reprocess wraps a brand-new canvas in a
brand-new frame object whose id differs from the old frame's, so the old
frame and its canvas are left intact for any other holder of a reference. -/
theorem c8_fresh_canvas_no_mutation (image : Image) (l : FaceLandmarks)
    (opts : AlignFaceOptions) (fresh : ℕ) (ids : List ℕ)
    (loadImage : String → Image) (detect : Image → Except Unit (Option FaceLandmarks))
    (z : ℝ) (now : ℕ) (img : ProcessedImage) (c : Canvas) (lm : FaceLandmarks)
    (hfresh : fresh ∉ ids)
    (herr : img.hasError = false) (hc : img.alignedCanvas = some c)
    (hcid : c.id ∈ ids)
    (hdet : detect (loadImage img.originalUrl) = .ok (some lm)) :
    (alignFace fresh image l opts).id = fresh ∧
    (alignFace fresh image l opts).id ∉ ids ∧
    (alignFace fresh image l opts).drawnImage = image.id ∧
    (reprocessFrame loadImage detect z now fresh img).1.alignedCanvas
      = some (alignFace fresh (loadImage img.originalUrl) lm
          { canvasSize := some 500, targetEyeDistance := some z }) ∧
    (alignFace fresh (loadImage img.originalUrl) lm
        { canvasSize := some 500, targetEyeDistance := some z }).id ≠ c.id ∧
    (reprocessFrame loadImage detect z now fresh img).1.id ≠ img.id ∧
    (reprocessFrame loadImage detect z now fresh img).1 ≠ img := by
  have hnew := reprocessFrame_success loadImage detect z now fresh img c lm
    herr hc hdet
  have hid : (reprocessFrame loadImage detect z now fresh img).1.id
      = img.id ++ "-reprocessed-" ++ toString now := by
    rw [hnew]
  have hidne : (reprocessFrame loadImage detect z now fresh img).1.id ≠ img.id := by
    rw [hid]
    intro h
    have hlen := congrArg String.length h
    rw [String.length_append, String.length_append] at hlen
    have h13 : "-reprocessed-".length = 13 := rfl
    rw [h13] at hlen
    omega
  refine ⟨rfl, hfresh, rfl, ?_, ?_, hidne, ?_⟩
  · rw [hnew]
  · intro h
    apply hfresh
    have hfc : fresh = c.id := h
    rw [hfc]
    exact hcid
  · intro h
    exact hidne (congrArg ProcessedImage.id h)

/-- Witness for `c8_fresh_canvas_no_mutation`: existing canvas id 0, fresh
id 1, redetection succeeding with the other landmarks. -/
theorem c8_fresh_canvas_no_mutation_witness :
    ((1 : ℕ) ∉ [0] ∧ sampleFrame.hasError = false ∧
      sampleFrame.alignedCanvas = some sampleCanvas ∧ sampleCanvas.id ∈ [0] ∧
      ((fun _ : Image => (.ok (some otherLandmarks) :
          Except Unit (Option FaceLandmarks)))
        ((fun _ : String => sampleImage) sampleFrame.originalUrl)
        = .ok (some otherLandmarks))) ∧
    ((alignFace 1 sampleImage sampleLandmarks {}).id = 1 ∧
      (alignFace 1 sampleImage sampleLandmarks {}).id ∉ [0] ∧
      (alignFace 1 sampleImage sampleLandmarks {}).drawnImage = sampleImage.id ∧
      (reprocessFrame (fun _ => sampleImage) (fun _ => .ok (some otherLandmarks))
          100 9 1 sampleFrame).1.alignedCanvas
        = some (alignFace 1 ((fun _ : String => sampleImage) sampleFrame.originalUrl)
            otherLandmarks { canvasSize := some 500, targetEyeDistance := some 100 }) ∧
      (alignFace 1 ((fun _ : String => sampleImage) sampleFrame.originalUrl)
          otherLandmarks { canvasSize := some 500, targetEyeDistance := some 100 }).id
        ≠ sampleCanvas.id ∧
      (reprocessFrame (fun _ => sampleImage) (fun _ => .ok (some otherLandmarks))
          100 9 1 sampleFrame).1.id ≠ sampleFrame.id ∧
      (reprocessFrame (fun _ => sampleImage) (fun _ => .ok (some otherLandmarks))
          100 9 1 sampleFrame).1 ≠ sampleFrame) := by
  have hfresh : (1 : ℕ) ∉ [0] := by decide
  have hcid : sampleCanvas.id ∈ [0] := List.mem_singleton.mpr rfl
  exact ⟨⟨hfresh, rfl, rfl, hcid, rfl⟩,
    c8_fresh_canvas_no_mutation sampleImage sampleLandmarks {} 1 [0]
      (fun _ => sampleImage) (fun _ => .ok (some otherLandmarks)) 100 9
      sampleFrame sampleCanvas otherLandmarks hfresh rfl rfl hcid rfl⟩

end AiMatchCut
